import Mathlib

/-!
Shallow embedding of `src/load-testing/websocket_stress.py`
(class `CentrifugoStressTester`).

The Python code is asynchronous and network-driven; we embed it as
script-driven deterministic functions: the environment's behaviour
(whether each network call succeeds, which exception class it raises,
what the shared `running` flag reads at each check, which value
`random.uniform(1, 3)` returns) is an explicit input, and the code's
control flow and statistics updates are translated statement by
statement.

Correspondence to the source:
* `Stats` — the `self.stats` dictionary (lines 26–33).
* `listenLoop` — `listen_for_messages` (lines 86–108).
* `tryRun` — the body of the `try` block at lines 52–71.
* `sessionIter` — one execution of the `try/except` at lines 52–81.
* `sessionLoop` — the `while` loop at lines 51–81; each list entry
  supplies the values read during one evaluation of the loop condition
  and, when the body runs, the outcome of that iteration's body.
* `create_websocket_client` — lines 47–84 (token fetch, loop, and the
  final `connections_failed` check).
* `send_chat_messages` — lines 131–148.
-/

namespace WsStress

/-- The `self.stats` counter dictionary initialised at lines 26–33. -/
structure Stats where
  connections_created : Nat
  connections_failed : Nat
  messages_sent : Nat
  messages_received : Nat
  reconnections : Nat
  errors : Nat
deriving Repr, DecidableEq

/-- All six counters start at zero (lines 26–33, and the reset at line 196). -/
def initStats : Stats := ⟨0, 0, 0, 0, 0, 0⟩

/-- Classification of a raised Python exception as seen by the two
`except` clauses at lines 72 and 77: either
`websockets.exceptions.ConnectionClosed` or any other `Exception`. -/
inductive ExcKind
  | connectionClosed
  | otherExc
deriving Repr, DecidableEq

/-- `max_reconnects = 5` (line 50). -/
def max_reconnects : Nat := 5

/-- Line 55: `self.stats [connections_created] += 1`. -/
def bumpCreated (s : Stats) : Stats :=
  { s with connections_created := s.connections_created + 1 }

/-- Line 94: `self.stats [messages_received] += 1`, aggregated over a
whole run of the receive loop. -/
def bumpRecvd (s : Stats) (n : Nat) : Stats :=
  { s with messages_received := s.messages_received + n }

/-- One event observed by one iteration of the receive loop at
lines 90–105 of `listen_for_messages`. -/
inductive RecvEvent
  /-- `websocket.recv` returned a message (line 92); the Boolean records
  whether the 1% `simulate_client_issue` branch at lines 97–98 fired
  (it only sleeps, changing no counter and no state). -/
  | msg (disrupt : Bool)
  /-- `asyncio.wait_for` timed out and the idle threshold at line 100
  was not exceeded, so no ping is sent. -/
  | timeoutNoPing
  /-- Timeout, idle threshold exceeded, and the ping at line 102 succeeded. -/
  | timeoutPing
  /-- Timeout, and the ping at line 102 raised: the exception is not
  caught by the sibling handlers at lines 99/103, so it escapes to the
  outer `except` at line 106, which logs and re-raises it. -/
  | timeoutPingRaise (k : ExcKind)
  /-- `websocket.recv` raised `ConnectionClosed`: caught at line 103,
  `break` at line 105 — the function returns normally. -/
  | recvClosed
  /-- `websocket.recv` raised some other exception: not caught by the
  inner handlers, so it escapes to line 106 and is re-raised. -/
  | recvRaise
deriving Repr, DecidableEq

/-- How a run of `listen_for_messages` ended. -/
inductive ListenExitKind
  /-- Normal return via `break` (line 105). -/
  | broke
  /-- Normal return because `self.running` was false at line 90. -/
  | stopSeen
  /-- The exception `k` escaped (re-raised at line 108). -/
  | raised (k : ExcKind)
  /-- Model artifact: the event script ran out while the loop was live. -/
  | scriptEnd
deriving Repr, DecidableEq

/-- Result of a run of `listen_for_messages`: how many messages were
received (each incrementing `messages_received` at line 94) and how the
loop ended. -/
structure ListenResult where
  received : Nat
  exitKind : ListenExitKind
deriving Repr, DecidableEq

/-- The `while self.running` receive loop of `listen_for_messages`
(lines 90–105).  Each script entry gives the value of `self.running`
read at line 90 and, when it is true, the event of that iteration. -/
def listenLoop : List (Bool × RecvEvent) → Nat → ListenResult
  | [], n => ⟨n, ListenExitKind.scriptEnd⟩
  | (run, e) :: rest, n =>
    if run = false then ⟨n, ListenExitKind.stopSeen⟩
    else
      match e with
      | RecvEvent.msg _ => listenLoop rest (n + 1)
      | RecvEvent.timeoutNoPing => listenLoop rest n
      | RecvEvent.timeoutPing => listenLoop rest n
      | RecvEvent.timeoutPingRaise k => ⟨n, ListenExitKind.raised k⟩
      | RecvEvent.recvClosed => ⟨n, ListenExitKind.broke⟩
      | RecvEvent.recvRaise => ⟨n, ListenExitKind.raised ExcKind.otherExc⟩

/-- Where the body of the `try` at lines 52–71 stops, on one iteration
of the reconnect loop.  Every point that can raise is listed in source
order; `toListen` is the case where the whole handshake succeeded and
control reached `listen_for_messages` at line 71. -/
inductive TryScript
  /-- `websockets.connect` at line 54 raised `k`; note `connections_created`
  has not been incremented yet. -/
  | connectRaise (k : ExcKind)
  /-- `websocket.send(connect_msg)` at line 60 raised `k`. -/
  | sendConnectRaise (k : ExcKind)
  /-- `websocket.recv()` at line 61 raised `k`. -/
  | recvConnectRaise (k : ExcKind)
  /-- `websocket.send(subscribe_msg)` at line 68 raised `k`. -/
  | sendSubscribeRaise (k : ExcKind)
  /-- `websocket.recv()` at line 69 raised `k`. -/
  | recvSubscribeRaise (k : ExcKind)
  /-- The handshake succeeded; `listen_for_messages` runs on the given
  event script. -/
  | toListen (ls : List (Bool × RecvEvent))
deriving Repr, DecidableEq

/-- How the body of the `try` block ended. -/
inductive TryResult
  /-- The body ran to completion (i.e. `listen_for_messages` returned
  normally, by `break` or by seeing the stop flag). -/
  | completed
  /-- The body raised an exception of class `k`. -/
  | raised (k : ExcKind)
  /-- Model artifact: the listen script was exhausted mid-loop. -/
  | incomplete
deriving Repr, DecidableEq

/-- The body of the `try` at lines 52–71: connect (line 54), increment
`connections_created` (line 55), send/recv the connect frame
(lines 56–61), send/recv the subscribe frame (lines 63–69), then the
receive loop (line 71). -/
def tryRun (s : Stats) (t : TryScript) : Stats × TryResult :=
  match t with
  | TryScript.connectRaise k => (s, TryResult.raised k)
  | TryScript.sendConnectRaise k => (bumpCreated s, TryResult.raised k)
  | TryScript.recvConnectRaise k => (bumpCreated s, TryResult.raised k)
  | TryScript.sendSubscribeRaise k => (bumpCreated s, TryResult.raised k)
  | TryScript.recvSubscribeRaise k => (bumpCreated s, TryResult.raised k)
  | TryScript.toListen ls =>
    let r := listenLoop ls 0
    let s1 := bumpRecvd (bumpCreated s) r.received
    match r.exitKind with
    | ListenExitKind.broke => (s1, TryResult.completed)
    | ListenExitKind.stopSeen => (s1, TryResult.completed)
    | ListenExitKind.raised k => (s1, TryResult.raised k)
    | ListenExitKind.scriptEnd => (s1, TryResult.incomplete)

/-- Result of one full iteration of the loop body at lines 52–81:
updated stats, updated `reconnect_attempts`, the backoff sleep emitted
by the handler (if any), the token carried in the connect frame (if the
iteration reached line 60), and whether the model script ran out. -/
structure IterResult where
  stats : Stats
  attempts : Nat
  delay : Option ℚ
  frame : Option Nat
  incomplete : Bool
deriving Repr, DecidableEq

/-- Which token value the connect frame built at lines 56–59 carries on
an iteration: the `token` local captured at line 48 — the loop body
contains no further call to `get_token`.  The frame is sent unless
`websockets.connect` itself raised. -/
def frameOf (tok : Nat) (t : TryScript) : Option Nat :=
  match t with
  | TryScript.connectRaise _ => none
  | _ => some tok

/-- One iteration of the loop body, lines 52–81: run the `try` body,
then the two `except` handlers — `ConnectionClosed` (lines 72–76:
`reconnect_attempts += 1`, `reconnections += 1`, sleep `uniform(1,3)`)
and any other `Exception` (lines 77–81: `errors += 1`,
`reconnect_attempts += 1`, sleep `uniform(1,3)`).  A body that completes
normally runs no handler: no counter changes, no attempt increment, no
sleep.  `d` is the value `random.uniform(1, 3)` would return. -/
def sessionIter (tok : Nat) (s : Stats) (a : Nat) (t : TryScript) (d : ℚ) :
    IterResult :=
  match tryRun s t with
  | (s1, TryResult.completed) => ⟨s1, a, none, frameOf tok t, false⟩
  | (s1, TryResult.raised ExcKind.connectionClosed) =>
      ⟨{ s1 with reconnections := s1.reconnections + 1 }, a + 1, some d,
        frameOf tok t, false⟩
  | (s1, TryResult.raised ExcKind.otherExc) =>
      ⟨{ s1 with errors := s1.errors + 1 }, a + 1, some d,
        frameOf tok t, false⟩
  | (s1, TryResult.incomplete) => ⟨s1, a, none, frameOf tok t, true⟩

/-- Inputs consumed by one evaluation of the `while` condition at
line 51: the value of `self.running` read there, and — if the body then
runs — the script of that iteration's body and the value of
`random.uniform(1, 3)`. -/
structure SessionInput where
  running : Bool
  script : TryScript
  backoff : ℚ
deriving Repr, DecidableEq

/-- Why the reconnect loop stopped. -/
inductive SessionExit
  /-- The condition at line 51 found `self.running` false. -/
  | stopSeen
  /-- The condition found `reconnect_attempts < max_reconnects` false. -/
  | budget
  /-- Model artifact: the script was exhausted while the loop was live. -/
  | scriptEnd
deriving Repr, DecidableEq

/-- Result of running the `while` loop at lines 51–81: final stats,
final `reconnect_attempts`, how many times the body ran, the backoff
sleep emitted after each body run (`none` when the body completed
without an exception and so without a sleep), the token carried by each
connect frame sent, and why the loop stopped. -/
structure SessionLoopResult where
  stats : Stats
  attempts : Nat
  iterations : Nat
  delays : List (Option ℚ)
  frames : List Nat
  exitKind : SessionExit
deriving Repr, DecidableEq

/-- The `while self.running and reconnect_attempts < max_reconnects`
loop at lines 51–81. -/
def sessionLoop (tok : Nat) :
    List SessionInput → Stats → Nat → SessionLoopResult
  | [], s, a => ⟨s, a, 0, [], [], SessionExit.scriptEnd⟩
  | i :: rest, s, a =>
    if i.running = false then ⟨s, a, 0, [], [], SessionExit.stopSeen⟩
    else if a < max_reconnects then
      let r := sessionIter tok s a i.script i.backoff
      if r.incomplete then
        ⟨r.stats, r.attempts, 1, [r.delay], r.frame.toList, SessionExit.scriptEnd⟩
      else
        let rec1 := sessionLoop tok rest r.stats r.attempts
        ⟨rec1.stats, rec1.attempts, rec1.iterations + 1,
          r.delay :: rec1.delays, r.frame.toList ++ rec1.frames, rec1.exitKind⟩
    else ⟨s, a, 0, [], [], SessionExit.budget⟩

/-- Lines 82–84: after the loop exits, `connections_failed` is
incremented exactly when `reconnect_attempts >= max_reconnects`. -/
def finishSession (r : SessionLoopResult) : Stats :=
  if max_reconnects ≤ r.attempts then
    { r.stats with connections_failed := r.stats.connections_failed + 1 }
  else r.stats

/-- Overall outcome of `create_websocket_client`. -/
inductive SessionResult
  /-- `self.get_token()` at line 48 raised; the exception propagates out
  of the coroutine (line 48 is guarded by no `try`), so the loop never
  runs and no counter is touched. -/
  | authRaised
  /-- The loop exited (stop flag or exhausted budget) and the check at
  lines 82–84 produced the given final stats. -/
  | done (r : SessionLoopResult) (final : Stats)
  /-- Model artifact: the script ran out while the loop was live. -/
  | cut (r : SessionLoopResult)
deriving Repr, DecidableEq

/-- `create_websocket_client` (lines 47–84).  `tokenOk` is whether the
single `get_token` call at line 48 succeeds; `tok` is the token value it
returns when it does. -/
def create_websocket_client (tokenOk : Bool) (tok : Nat)
    (inputs : List SessionInput) (s : Stats) : SessionResult :=
  if tokenOk = false then SessionResult.authRaised
  else
    let r := sessionLoop tok inputs s 0
    match r.exitKind with
    | SessionExit.scriptEnd => SessionResult.cut r
    | _ => SessionResult.done r (finishSession r)

/-- Number of calls to `get_token` made by one run of
`create_websocket_client`: exactly the one at line 48 — the loop body at
lines 52–81 contains none, whatever the number of iterations. -/
def sessionTokenFetches : Nat := 1

/-- The shared stats object as it stands when the session coroutine
ends (normally or by exception): when `get_token` raised, nothing was
touched; otherwise the loop ran and lines 82–84 applied. -/
def statsAfterSession (tokenOk : Bool) (tok : Nat)
    (inputs : List SessionInput) (s : Stats) : Stats :=
  match create_websocket_client tokenOk tok inputs s with
  | SessionResult.authRaised => s
  | SessionResult.done _ final => final
  | SessionResult.cut r => r.stats

/-- The final `reconnect_attempts` of a session run, when the loop ran. -/
def attemptsOf : SessionResult → Option Nat
  | SessionResult.authRaised => none
  | SessionResult.done r _ => some r.attempts
  | SessionResult.cut r => some r.attempts

/-- How many times the loop body (lines 52–81) ran, i.e. how many
connection attempts were started. -/
def iterationsOf : SessionResult → Option Nat
  | SessionResult.authRaised => none
  | SessionResult.done r _ => some r.iterations
  | SessionResult.cut r => some r.iterations

/-- The tokens carried by the connect frames the session sent. -/
def framesOf : SessionResult → List Nat
  | SessionResult.authRaised => []
  | SessionResult.done r _ => r.frames
  | SessionResult.cut r => r.frames

/-- Outcome of one iteration of the driver loop at lines 132–148. -/
inductive SendOutcome
  /-- `requests.post` returned status 200 (lines 140–142):
  `messages_sent += 1`, then the sleep at line 145. -/
  | ok
  /-- A non-200 status (lines 143–144): only a log line, then the sleep
  at line 145 — no counter is touched. -/
  | badStatus
  /-- `requests.post` raised (lines 146–148): `errors += 1`; the sleep
  at line 145 is skipped and the loop continues. -/
  | raised
deriving Repr, DecidableEq

/-- One iteration of the driver loop body: updated stats, and whether
the inter-message sleep at line 145 was reached. -/
def driverIter (s : Stats) (o : SendOutcome) : Stats × Bool :=
  match o with
  | SendOutcome.ok => ({ s with messages_sent := s.messages_sent + 1 }, true)
  | SendOutcome.badStatus => (s, true)
  | SendOutcome.raised => ({ s with errors := s.errors + 1 }, false)

/-- Result of a run of `send_chat_messages`. -/
structure DriverResult where
  stats : Stats
  iterations : Nat
  sleeps : Nat
deriving Repr, DecidableEq

/-- `send_chat_messages` (lines 131–148): `for i in range(num_messages)`
over the given outcomes.  The method body never reads `self.running`;
the `running` argument records the stop flag's value for the stated
claims and is accordingly unread, exactly as in the source. -/
def send_chat_messages (running : Bool) (outs : List SendOutcome)
    (s : Stats) : DriverResult :=
  match outs with
  | [] => ⟨s, 0, 0⟩
  | o :: rest =>
    let p := driverIter s o
    let r := send_chat_messages running rest p.1
    ⟨r.stats, r.iterations + 1, r.sleeps + (if p.2 then 1 else 0)⟩

/-- The exception class a handshake-phase script raises, or `none` when
the attempt reached the receive loop. -/
def handshakeExc : TryScript → Option ExcKind
  | TryScript.connectRaise k => some k
  | TryScript.sendConnectRaise k => some k
  | TryScript.recvConnectRaise k => some k
  | TryScript.sendSubscribeRaise k => some k
  | TryScript.recvSubscribeRaise k => some k
  | TryScript.toListen _ => none

/-! ### Helper lemmas -/

/-- The driver loop runs once per element of its outcome list. -/
theorem send_iterations (running : Bool) (outs : List SendOutcome) (s : Stats) :
    (send_chat_messages running outs s).iterations = outs.length := by
  induction outs generalizing s with
  | nil => rfl
  | cons o rest ih => simp [send_chat_messages, ih]

/-- The driver's behaviour does not depend on the stop flag: the loop
body at lines 132–148 never reads `self.running`. -/
theorem send_running_irrel (running : Bool) (outs : List SendOutcome) (s : Stats) :
    send_chat_messages running outs s = send_chat_messages true outs s := by
  induction outs generalizing s with
  | nil => rfl
  | cons o rest ih => simp [send_chat_messages, ih]

/-- One step of the receive loop on a received message: the counter
goes up and the loop continues. -/
theorem listenLoop_msg_cons (l : List (Bool × RecvEvent)) (n : Nat) :
    listenLoop ((true, RecvEvent.msg false) :: l) n = listenLoop l (n + 1) := rfl

/-- A receive loop that sees `m` messages first consumes them all,
incrementing the received counter `m` times, then takes the remaining
script. -/
theorem listenLoop_msgs (m : Nat) (rest : List (Bool × RecvEvent)) (n : Nat) :
    listenLoop (List.replicate m (true, RecvEvent.msg false) ++ rest) n
      = listenLoop rest (n + m) := by
  induction m generalizing n with
  | zero => simp
  | succ m ih =>
      rw [List.replicate_succ, List.cons_append, listenLoop_msg_cons, ih]
      congr 1
      omega

/-- The connect frame built on any iteration carries the token captured
at line 48. -/
theorem sessionIter_frame (tok : Nat) (s : Stats) (a : Nat) (t : TryScript)
    (d : ℚ) : (sessionIter tok s a t d).frame = frameOf tok t := by
  unfold sessionIter
  split <;> rfl

/-- Any token appearing in a frame is the session's single token. -/
theorem frameOf_mem (tok : Nat) (t : TryScript) (x : Nat)
    (hx : x ∈ (frameOf tok t).toList) : x = tok := by
  cases t <;> simp [frameOf] at hx <;> exact hx

/-- One-step unfolding of the reconnect loop when the stop flag is up,
the budget is not exhausted, and the body's script is complete. -/
theorem sessionLoop_cons_step (tok : Nat) (i : SessionInput)
    (rest : List SessionInput) (s : Stats) (a : Nat)
    (hrun : i.running = true) (ha : a < max_reconnects)
    (hinc : (sessionIter tok s a i.script i.backoff).incomplete = false) :
    sessionLoop tok (i :: rest) s a =
      ⟨(sessionLoop tok rest (sessionIter tok s a i.script i.backoff).stats
          (sessionIter tok s a i.script i.backoff).attempts).stats,
        (sessionLoop tok rest (sessionIter tok s a i.script i.backoff).stats
          (sessionIter tok s a i.script i.backoff).attempts).attempts,
        (sessionLoop tok rest (sessionIter tok s a i.script i.backoff).stats
          (sessionIter tok s a i.script i.backoff).attempts).iterations + 1,
        (sessionIter tok s a i.script i.backoff).delay ::
          (sessionLoop tok rest (sessionIter tok s a i.script i.backoff).stats
            (sessionIter tok s a i.script i.backoff).attempts).delays,
        (sessionIter tok s a i.script i.backoff).frame.toList ++
          (sessionLoop tok rest (sessionIter tok s a i.script i.backoff).stats
            (sessionIter tok s a i.script i.backoff).attempts).frames,
        (sessionLoop tok rest (sessionIter tok s a i.script i.backoff).stats
          (sessionIter tok s a i.script i.backoff).attempts).exitKind⟩ := by
  rw [sessionLoop, hrun]
  rw [if_neg (by decide : ¬ (true = false)), if_pos ha]
  simp only [hinc, Bool.false_eq_true, if_false]

/-- Every token carried by a connect frame during the reconnect loop is
the session's single token, captured at line 48. -/
theorem sessionLoop_frames_eq (tok : Nat) :
    ∀ (inputs : List SessionInput) (s : Stats) (a : Nat) (x : Nat),
      x ∈ (sessionLoop tok inputs s a).frames → x = tok
  | [], s, a, x => by
      intro hx
      simp [sessionLoop] at hx
  | i :: rest, s, a, x => by
      intro hx
      simp only [sessionLoop] at hx
      split at hx
      · simp at hx
      · split at hx
        · split at hx
          · simp only at hx
            exact frameOf_mem tok i.script x
              (by rw [← sessionIter_frame tok s a i.script i.backoff]; exact hx)
          · simp only [List.mem_append] at hx
            rcases hx with hx | hx
            · exact frameOf_mem tok i.script x
                (by rw [← sessionIter_frame tok s a i.script i.backoff]; exact hx)
            · exact sessionLoop_frames_eq tok rest _ _ x hx
        · simp at hx

/-- The frames recorded by `create_websocket_client` in the success case
are exactly those of the underlying loop. -/
theorem framesOf_create (tok : Nat) (inputs : List SessionInput) (s : Stats) :
    framesOf (create_websocket_client true tok inputs s)
      = (sessionLoop tok inputs s 0).frames := by
  simp only [create_websocket_client]
  rw [if_neg (by decide : ¬ (true = false))]
  split <;> rfl

/-- A session whose handshakes all succeed and whose connection is then
closed during the receive loop, `n` times in a row, reconnects `n` times
with the retry counter stuck at zero: the `ConnectionClosed` inside
`listen_for_messages` is swallowed by the `break` at line 105, so no
handler at lines 72–81 runs. -/
theorem sessionLoop_listenClosed (tok : Nat) :
    ∀ (n : Nat) (s : Stats) (a : Nat), a < max_reconnects →
      sessionLoop tok
        (List.replicate n ⟨true, TryScript.toListen [(true, RecvEvent.recvClosed)], 1⟩) s a
        = ⟨{ s with connections_created := s.connections_created + n }, a, n,
            List.replicate n none, List.replicate n tok, SessionExit.scriptEnd⟩
  | 0, s, a, h => by
      simp [sessionLoop]
  | n + 1, s, a, h => by
      have ih := sessionLoop_listenClosed tok n (bumpRecvd (bumpCreated s) 0) a h
      rw [List.replicate_succ]
      rw [sessionLoop_cons_step tok
            ⟨true, TryScript.toListen [(true, RecvEvent.recvClosed)], 1⟩
            (List.replicate n ⟨true, TryScript.toListen [(true, RecvEvent.recvClosed)], 1⟩)
            s a rfl h rfl]
      rw [show sessionIter tok s a
            (⟨true, TryScript.toListen [(true, RecvEvent.recvClosed)], (1 : ℚ)⟩ : SessionInput).script
            (⟨true, TryScript.toListen [(true, RecvEvent.recvClosed)], (1 : ℚ)⟩ : SessionInput).backoff
          = ⟨bumpRecvd (bumpCreated s) 0, a, none, some tok, false⟩ from rfl]
      simp only [ih, List.replicate_succ, Option.toList_some, List.cons_append,
        List.nil_append]
      simp only [SessionLoopResult.mk.injEq, Stats.mk.injEq, bumpRecvd, bumpCreated,
        and_true, true_and]
      omega

/-- One-step unfolding of the reconnect loop on a literal input whose
stop flag is up. -/
theorem sessionLoop_cons_true (tok : Nat) (t : TryScript) (d : ℚ)
    (rest : List SessionInput) (s : Stats) (a : Nat) (ha : a < max_reconnects)
    (hinc : (sessionIter tok s a t d).incomplete = false) :
    sessionLoop tok (⟨true, t, d⟩ :: rest) s a =
      ⟨(sessionLoop tok rest (sessionIter tok s a t d).stats
          (sessionIter tok s a t d).attempts).stats,
        (sessionLoop tok rest (sessionIter tok s a t d).stats
          (sessionIter tok s a t d).attempts).attempts,
        (sessionLoop tok rest (sessionIter tok s a t d).stats
          (sessionIter tok s a t d).attempts).iterations + 1,
        (sessionIter tok s a t d).delay ::
          (sessionLoop tok rest (sessionIter tok s a t d).stats
            (sessionIter tok s a t d).attempts).delays,
        (sessionIter tok s a t d).frame.toList ++
          (sessionLoop tok rest (sessionIter tok s a t d).stats
            (sessionIter tok s a t d).attempts).frames,
        (sessionLoop tok rest (sessionIter tok s a t d).stats
          (sessionIter tok s a t d).attempts).exitKind⟩ :=
  sessionLoop_cons_step tok ⟨true, t, d⟩ rest s a rfl ha hinc

/-- The loop condition at line 51 observes a lowered stop flag and exits
at once, leaving stats and attempts untouched. -/
theorem sessionLoop_cons_false (tok : Nat) (t : TryScript) (d : ℚ)
    (rest : List SessionInput) (s : Stats) (a : Nat) :
    sessionLoop tok (⟨false, t, d⟩ :: rest) s a
      = ⟨s, a, 0, [], [], SessionExit.stopSeen⟩ := rfl

/-! ### Claims -/

/-- C1 (counterexample): the claimed invariant
`connections_created >= connections_failed` fails on the code at the
very scenario the claim cites.  A session whose transport connect call
(line 54) fails on all 5 attempts never reaches line 55, so after its
budget is exhausted the final stats are `connections_created = 0` and
`connections_failed = 1`. -/
theorem C1_counterexample :
    (statsAfterSession true 7
        (List.replicate 6 ⟨true, TryScript.connectRaise ExcKind.otherExc, 2⟩)
        initStats).connections_created
      < (statsAfterSession true 7
          (List.replicate 6 ⟨true, TryScript.connectRaise ExcKind.otherExc, 2⟩)
          initStats).connections_failed := by
  decide

/-- C1 (amended): a session whose transport connect call fails on every
attempt makes exactly 5 attempts, increments `connections_failed` once
after exhausting its budget and never increments `connections_created`,
so the final stats are `connections_created = 0`, `connections_failed = 1`,
`errors = 5` — violating `connections_created >= connections_failed`,
which therefore does not hold for every run. -/
theorem C1_amended (tok : Nat) (d : ℚ) :
    statsAfterSession true tok
        (List.replicate 6 ⟨true, TryScript.connectRaise ExcKind.otherExc, d⟩)
        initStats = ⟨0, 1, 0, 0, 0, 5⟩
      ∧ attemptsOf (create_websocket_client true tok
          (List.replicate 6 ⟨true, TryScript.connectRaise ExcKind.otherExc, d⟩)
          initStats) = some 5 :=
  ⟨rfl, rfl⟩

/-- C2 (counterexample): when the token endpoint fails, `get_token`
raises at line 48, which is outside the `try` and outside the loop: the
exception propagates out of `create_websocket_client`, the session makes
0 attempts, and the stats are untouched — `connections_failed = 0` and
`errors = 0`, not `1` and `5` as the claim states. -/
theorem C2_counterexample :
    create_websocket_client false 0 [] initStats = SessionResult.authRaised
      ∧ (statsAfterSession false 0 [] initStats).connections_failed = 0
      ∧ (statsAfterSession false 0 [] initStats).errors = 0 :=
  ⟨rfl, rfl, rfl⟩

/-- C2 (amended): if the token endpoint fails on the session's single
`get_token` call, the exception escapes the coroutine before the retry
loop ever runs: no connection attempt is made and the shared stats are
left unchanged, whatever state they were in. -/
theorem C2_amended (tok : Nat) (inputs : List SessionInput) (s : Stats) :
    create_websocket_client false tok inputs s = SessionResult.authRaised
      ∧ statsAfterSession false tok inputs s = s :=
  ⟨rfl, rfl⟩

/-- C3 (counterexample): a session whose connection is closed during the
receive loop 7 times in a row — more than `max_reconnects = 5` — has
made 7 (re)connection attempts, its retry counter still reads 0, and the
loop is still live: the `ConnectionClosed` caught at line 103 leads to
`break`, `listen_for_messages` returns normally, and no `except` handler
of `create_websocket_client` runs. -/
theorem C3_counterexample :
    ∃ r, create_websocket_client true 7
        (List.replicate 7 ⟨true, TryScript.toListen [(true, RecvEvent.recvClosed)], 1⟩)
        initStats = SessionResult.cut r
      ∧ r.attempts = 0 ∧ r.iterations = 7
      ∧ r.stats.connections_created = 7 ∧ r.stats.reconnections = 0 :=
  ⟨⟨⟨7, 0, 0, 0, 0, 0⟩, 0, 7, List.replicate 7 none, List.replicate 7 7,
      SessionExit.scriptEnd⟩, rfl, rfl, rfl, rfl, rfl⟩

/-- C3 (amended): the retry counter is incremented on every exception
reaching the handlers at lines 72–81 (failed connect, failed handshake
or subscribe, and a `ConnectionClosed` raised by the idle-ping path),
but a close of the active connection during `recv` is swallowed by the
`break` at line 105: the session then reconnects without incrementing
the counter, so for every `n` there is a run with `n` (re)connection
attempts whose retry counter is still 0 and which has not reached any
terminal state. -/
theorem C3_amended (n : Nat) :
    ∃ r, create_websocket_client true 7
        (List.replicate n ⟨true, TryScript.toListen [(true, RecvEvent.recvClosed)], 1⟩)
        initStats = SessionResult.cut r
      ∧ r.attempts = 0 ∧ r.iterations = n ∧ r.stats.connections_created = n := by
  have h := sessionLoop_listenClosed 7 n initStats 0 (by decide)
  refine ⟨⟨{ initStats with connections_created := initStats.connections_created + n },
      0, n, List.replicate n none, List.replicate n 7, SessionExit.scriptEnd⟩,
    ?_, rfl, rfl, ?_⟩
  · simp only [create_websocket_client]
    rw [if_neg (by decide : ¬ (true = false)), h]
  · show initStats.connections_created + n = n
    simp [initStats]

/-- C4 (counterexample): a run that makes 2 connection attempts sends
the very same token 42 in both connect frames while `get_token` was
called exactly once — the token is fetched at line 48, before the loop,
and reused across reconnects. -/
theorem C4_counterexample :
    framesOf (create_websocket_client true 42
        [⟨true, TryScript.sendConnectRaise ExcKind.otherExc, 1⟩,
         ⟨true, TryScript.sendConnectRaise ExcKind.otherExc, 1⟩] initStats) = [42, 42]
      ∧ iterationsOf (create_websocket_client true 42
          [⟨true, TryScript.sendConnectRaise ExcKind.otherExc, 1⟩,
           ⟨true, TryScript.sendConnectRaise ExcKind.otherExc, 1⟩] initStats) = some 2
      ∧ sessionTokenFetches = 1 :=
  ⟨rfl, rfl, rfl⟩

/-- C4 (amended): the Credential is fetched exactly once per session —
by the single `get_token` call at line 48, before the retry loop — and
every connect frame the session ever sends carries that same token:
nothing fresh is fetched on reconnection attempts. -/
theorem C4_amended (tok : Nat) (inputs : List SessionInput) (s : Stats) (x : Nat)
    (hx : x ∈ framesOf (create_websocket_client true tok inputs s)) :
    x = tok ∧ sessionTokenFetches = 1 := by
  refine ⟨?_, rfl⟩
  rw [framesOf_create] at hx
  exact sessionLoop_frames_eq tok inputs s 0 x hx

/-- Witness for C4 (amended) at a concrete run: one attempt that reaches
line 60 sends token 42, and 42 is the session token. -/
theorem C4_amended_witness :
    (42 : Nat) = 42 ∧ sessionTokenFetches = 1 :=
  C4_amended 42 [⟨true, TryScript.sendConnectRaise ExcKind.otherExc, 1⟩]
    initStats 42 (by decide)

/-- C5 (counterexample): an attempt whose transport connect succeeds but
whose subscribe acknowledgment read (line 69) raises has incremented
`connections_created` although the session never received a subscribe
ack and never entered the receive loop: the increment sits at line 55,
directly after `websockets.connect`, not after the subscribe ack. -/
theorem C5_counterexample :
    ∃ r, create_websocket_client true 7
        [⟨true, TryScript.recvSubscribeRaise ExcKind.otherExc, 1⟩] initStats
      = SessionResult.cut r
      ∧ r.stats.connections_created = 1 ∧ r.stats.errors = 1 ∧ r.iterations = 1 :=
  ⟨⟨⟨1, 0, 0, 0, 0, 1⟩, 1, 1, [some 1], [7], SessionExit.scriptEnd⟩,
    rfl, rfl, rfl, rfl⟩

/-- C5 (amended): `connections_created` is incremented exactly when the
transport connect at line 54 succeeds — before authentication, before
subscribe, and regardless of whether the rest of the attempt succeeds:
on every iteration it grows by 1 unless `websockets.connect` itself
raised. -/
theorem C5_amended (tok : Nat) (s : Stats) (a : Nat) (t : TryScript) (d : ℚ) :
    (sessionIter tok s a t d).stats.connections_created
      = s.connections_created
        + (match t with | TryScript.connectRaise _ => 0 | _ => 1) := by
  cases t with
  | connectRaise k => cases k <;> rfl
  | sendConnectRaise k => cases k <;> rfl
  | recvConnectRaise k => cases k <;> rfl
  | sendSubscribeRaise k => cases k <;> rfl
  | recvSubscribeRaise k => cases k <;> rfl
  | toListen ls =>
      rcases hE : (listenLoop ls 0).exitKind with _ | _ | k | _
      · simp [sessionIter, tryRun, hE, bumpCreated, bumpRecvd]
      · simp [sessionIter, tryRun, hE, bumpCreated, bumpRecvd]
      · cases k <;> simp [sessionIter, tryRun, hE, bumpCreated, bumpRecvd]
      · simp [sessionIter, tryRun, hE, bumpCreated, bumpRecvd]

/-- C6 (counterexample): an active connection closed unexpectedly once
mid-test followed by a successful reconnect leaves `reconnections = 0`,
not `1`: the close during `recv` is caught at line 103 and `break`
returns normally, so the `reconnections += 1` at line 75 never runs.
(`connections_failed = 0` does hold, and the session is Active again:
`connections_created = 2`.) -/
theorem C6_counterexample :
    (statsAfterSession true 7
        [⟨true, TryScript.toListen [(true, RecvEvent.recvClosed)], 1⟩,
         ⟨true, TryScript.toListen [(true, RecvEvent.msg false), (false, RecvEvent.msg false)], 1⟩,
         ⟨false, TryScript.connectRaise ExcKind.otherExc, 1⟩] initStats).reconnections = 0
      ∧ (statsAfterSession true 7
          [⟨true, TryScript.toListen [(true, RecvEvent.recvClosed)], 1⟩,
           ⟨true, TryScript.toListen [(true, RecvEvent.msg false), (false, RecvEvent.msg false)], 1⟩,
           ⟨false, TryScript.connectRaise ExcKind.otherExc, 1⟩] initStats).reconnections ≠ 1
      ∧ (statsAfterSession true 7
          [⟨true, TryScript.toListen [(true, RecvEvent.recvClosed)], 1⟩,
           ⟨true, TryScript.toListen [(true, RecvEvent.msg false), (false, RecvEvent.msg false)], 1⟩,
           ⟨false, TryScript.connectRaise ExcKind.otherExc, 1⟩] initStats).connections_failed = 0
      ∧ (statsAfterSession true 7
          [⟨true, TryScript.toListen [(true, RecvEvent.recvClosed)], 1⟩,
           ⟨true, TryScript.toListen [(true, RecvEvent.msg false), (false, RecvEvent.msg false)], 1⟩,
           ⟨false, TryScript.connectRaise ExcKind.otherExc, 1⟩] initStats).connections_created = 2 := by
  refine ⟨rfl, by decide, rfl, rfl⟩

/-- C6 (amended): if the active connection is closed unexpectedly
exactly once mid-test (after `m` messages) and the subsequent reconnect
succeeds (receiving `k` more messages until the stop signal), the final
stats satisfy `reconnections = 0` — not 1, the close-during-recv path
increments nothing — together with `connections_failed = 0`,
`connections_created = 2` and `messages_received = m + k`; the session
is back in its receive loop. -/
theorem C6_amended (m k : Nat) :
    statsAfterSession true 7
        [⟨true, TryScript.toListen
            (List.replicate m (true, RecvEvent.msg false) ++ [(true, RecvEvent.recvClosed)]), 1⟩,
         ⟨true, TryScript.toListen
            (List.replicate k (true, RecvEvent.msg false) ++ [(false, RecvEvent.msg false)]), 1⟩,
         ⟨false, TryScript.connectRaise ExcKind.otherExc, 1⟩] initStats
      = ⟨2, 0, 0, m + k, 0, 0⟩ := by
  have h1 : sessionIter 7 initStats 0
      (TryScript.toListen
        (List.replicate m (true, RecvEvent.msg false) ++ [(true, RecvEvent.recvClosed)])) 1
      = ⟨⟨1, 0, 0, m, 0, 0⟩, 0, none, some 7, false⟩ := by
    simp [sessionIter, tryRun, listenLoop_msgs, listenLoop, frameOf,
      bumpCreated, bumpRecvd, initStats]
  have h2 : sessionIter 7 ⟨1, 0, 0, m, 0, 0⟩ 0
      (TryScript.toListen
        (List.replicate k (true, RecvEvent.msg false) ++ [(false, RecvEvent.msg false)])) 1
      = ⟨⟨2, 0, 0, m + k, 0, 0⟩, 0, none, some 7, false⟩ := by
    simp [sessionIter, tryRun, listenLoop_msgs, listenLoop, frameOf,
      bumpCreated, bumpRecvd]
  simp only [statsAfterSession, create_websocket_client]
  rw [if_neg (by decide : ¬ (true = false))]
  rw [sessionLoop_cons_true 7 _ 1 _ initStats 0 (by decide) (by rw [h1])]
  simp only [h1]
  rw [sessionLoop_cons_true 7 _ 1 _ ⟨1, 0, 0, m, 0, 0⟩ 0 (by decide) (by rw [h2])]
  simp only [h2]
  rw [sessionLoop_cons_false]
  rfl

/-- C7 (counterexample): with the global stop signal already raised
(`running = false` throughout), a message-injection driver with 3
remaining iterations still performs all 3 of them and still posts all 3
messages: the loop at lines 132–148 never consults `self.running`, so
the driver does not stop before completing its remaining iterations. -/
theorem C7_counterexample :
    (send_chat_messages false [SendOutcome.ok, SendOutcome.ok, SendOutcome.ok]
        initStats).iterations = 3
      ∧ (send_chat_messages false [SendOutcome.ok, SendOutcome.ok, SendOutcome.ok]
          initStats).stats.messages_sent = 3 :=
  ⟨rfl, rfl⟩

/-- C7 (amended): once the global stop signal is raised, a session
observes it at its next evaluation of the loop condition (line 51) and
the receive loop observes it at its next iteration (line 90), exiting
with no further attempts; the message-injection driver, however, never
reads the stop flag: its run is identical whatever the flag reads, and
it always performs one iteration per remaining message. -/
theorem C7_amended :
    (∀ (running : Bool) (outs : List SendOutcome) (s : Stats),
        send_chat_messages running outs s = send_chat_messages true outs s
          ∧ (send_chat_messages running outs s).iterations = outs.length)
      ∧ (∀ (tok : Nat) (i : SessionInput) (rest : List SessionInput)
            (s : Stats) (a : Nat), i.running = false →
          sessionLoop tok (i :: rest) s a = ⟨s, a, 0, [], [], SessionExit.stopSeen⟩)
      ∧ (∀ (e : Bool × RecvEvent) (rest : List (Bool × RecvEvent)) (n : Nat),
          e.1 = false → listenLoop (e :: rest) n = ⟨n, ListenExitKind.stopSeen⟩) := by
  refine ⟨fun running outs s =>
      ⟨send_running_irrel running outs s, send_iterations running outs s⟩, ?_, ?_⟩
  · intro tok i rest s a h
    rw [sessionLoop, h]
    rfl
  · intro e rest n h
    rcases e with ⟨b, ev⟩
    simp only at h
    subst h
    rfl

/-- Witness for C7 (amended) on concrete inputs. -/
theorem C7_amended_witness :
    send_chat_messages false [SendOutcome.ok, SendOutcome.badStatus] initStats
        = send_chat_messages true [SendOutcome.ok, SendOutcome.badStatus] initStats
      ∧ sessionLoop 0 [⟨false, TryScript.connectRaise ExcKind.otherExc, 1⟩] initStats 0
        = ⟨initStats, 0, 0, [], [], SessionExit.stopSeen⟩
      ∧ listenLoop [(false, RecvEvent.msg false)] 0 = ⟨0, ListenExitKind.stopSeen⟩ :=
  ⟨(C7_amended.1 false [SendOutcome.ok, SendOutcome.badStatus] initStats).1,
   C7_amended.2.1 0 ⟨false, TryScript.connectRaise ExcKind.otherExc, 1⟩ [] initStats 0 rfl,
   C7_amended.2.2 (false, RecvEvent.msg false) [] 0 rfl⟩

/-- C8 (counterexample): a session performs two consecutive
(re)connection attempts with no backoff sleep between them: when the
first attempt's connection is closed during the receive loop, control
returns to the `while` head without passing any `asyncio.sleep`, so the
inter-retry delay on that reconnect path is zero, not in the range 1–3. -/
theorem C8_counterexample :
    ∃ r, create_websocket_client true 7
        [⟨true, TryScript.toListen [(true, RecvEvent.recvClosed)], 2⟩,
         ⟨true, TryScript.toListen [(true, RecvEvent.recvClosed)], 2⟩] initStats
      = SessionResult.cut r
      ∧ r.iterations = 2 ∧ r.delays = [none, none] :=
  ⟨⟨⟨2, 0, 0, 0, 0, 0⟩, 0, 2, [none, none], [7, 7], SessionExit.scriptEnd⟩,
    rfl, rfl, rfl⟩

/-- C8 (amended): on the exception reconnect paths (lines 76 and 81)
the backoff delay is `random.uniform(1, 3)`, hence always within 1–3
and never zero; but an iteration whose body completes normally — in
particular a reconnect caused by a close during the receive loop —
emits no backoff sleep at all.  Raised iterations (attempt counter
incremented) always sleep; completed iterations never do. -/
theorem C8_amended (tok : Nat) (s : Stats) (a : Nat) (t : TryScript) (d : ℚ)
    (h1 : 1 ≤ d) (h3 : d ≤ 3) :
    ((sessionIter tok s a t d).attempts = a + 1 →
        (sessionIter tok s a t d).delay = some d ∧ 1 ≤ d ∧ d ≤ 3)
      ∧ ((sessionIter tok s a t d).attempts = a →
        (sessionIter tok s a t d).delay = none) := by
  unfold sessionIter
  split <;> refine ⟨fun hh => ?_, fun hh => ?_⟩ <;>
    first
      | exact ⟨rfl, h1, h3⟩
      | rfl
      | (exfalso; simp only at hh; omega)

/-- Witness for C8 (amended) at a concrete failed attempt with delay 2. -/
theorem C8_amended_witness :
    ((sessionIter 0 initStats 0 (TryScript.connectRaise ExcKind.otherExc) 2).attempts = 0 + 1 →
        (sessionIter 0 initStats 0 (TryScript.connectRaise ExcKind.otherExc) 2).delay = some 2
          ∧ (1 : ℚ) ≤ 2 ∧ (2 : ℚ) ≤ 3)
      ∧ ((sessionIter 0 initStats 0 (TryScript.connectRaise ExcKind.otherExc) 2).attempts = 0 →
        (sessionIter 0 initStats 0 (TryScript.connectRaise ExcKind.otherExc) 2).delay = none) :=
  C8_amended 0 initStats 0 (TryScript.connectRaise ExcKind.otherExc) 2
    (by norm_num) (by norm_num)

/-- C9 (counterexample): a driver iteration whose chat submission
returns a non-success status leaves every counter unchanged — in
particular `errors` is not incremented, contradicting the claim; only
the log line at line 144 runs, and the loop continues. -/
theorem C9_counterexample :
    (send_chat_messages true [SendOutcome.badStatus] initStats).stats.errors = 0
      ∧ (send_chat_messages true [SendOutcome.badStatus] initStats).stats = initStats
      ∧ (send_chat_messages true [SendOutcome.badStatus] initStats).iterations = 1 :=
  ⟨rfl, rfl, rfl⟩

/-- C9 (amended): the driver increments `errors` exactly when the
submission raises a transport exception (lines 146–148); a non-success
HTTP status is only logged, incrementing no counter; `messages_sent` is
incremented exactly on success; and in every case the loop continues
through all remaining iterations. -/
theorem C9_amended (running : Bool) (o : SendOutcome) (rest : List SendOutcome)
    (s : Stats) :
    (send_chat_messages running (o :: rest) s).iterations = rest.length + 1
      ∧ (driverIter s o).1.errors
        = s.errors + (if o = SendOutcome.raised then 1 else 0)
      ∧ (driverIter s o).1.messages_sent
        = s.messages_sent + (if o = SendOutcome.ok then 1 else 0) := by
  refine ⟨?_, ?_, ?_⟩
  · rw [send_iterations]
    rfl
  · cases o <;> rfl
  · cases o <;> rfl

/-- C10 (confirmed): on any iteration whose handshake (lines 52–71,
before the receive loop) raises, the attempt counter goes up by one and
exactly one of the two counters is incremented, selected by the
exception class: `ConnectionClosed` increments `reconnections` and
leaves `errors` alone (lines 72–76), any other exception increments
`errors` and leaves `reconnections` alone (lines 77–81). -/
theorem C10_confirmed (tok : Nat) (s : Stats) (a : Nat) (t : TryScript) (d : ℚ)
    (k : ExcKind) (hk : handshakeExc t = some k) :
    (sessionIter tok s a t d).attempts = a + 1
      ∧ (k = ExcKind.connectionClosed →
          (sessionIter tok s a t d).stats.reconnections = s.reconnections + 1
            ∧ (sessionIter tok s a t d).stats.errors = s.errors)
      ∧ (k = ExcKind.otherExc →
          (sessionIter tok s a t d).stats.errors = s.errors + 1
            ∧ (sessionIter tok s a t d).stats.reconnections = s.reconnections) := by
  cases t with
  | toListen ls => simp [handshakeExc] at hk
  | connectRaise k0 =>
      simp only [handshakeExc, Option.some.injEq] at hk
      subst hk
      cases k0 with
      | connectionClosed => exact ⟨rfl, fun _ => ⟨rfl, rfl⟩, fun h => ExcKind.noConfusion h⟩
      | otherExc => exact ⟨rfl, fun h => ExcKind.noConfusion h, fun _ => ⟨rfl, rfl⟩⟩
  | sendConnectRaise k0 =>
      simp only [handshakeExc, Option.some.injEq] at hk
      subst hk
      cases k0 with
      | connectionClosed => exact ⟨rfl, fun _ => ⟨rfl, rfl⟩, fun h => ExcKind.noConfusion h⟩
      | otherExc => exact ⟨rfl, fun h => ExcKind.noConfusion h, fun _ => ⟨rfl, rfl⟩⟩
  | recvConnectRaise k0 =>
      simp only [handshakeExc, Option.some.injEq] at hk
      subst hk
      cases k0 with
      | connectionClosed => exact ⟨rfl, fun _ => ⟨rfl, rfl⟩, fun h => ExcKind.noConfusion h⟩
      | otherExc => exact ⟨rfl, fun h => ExcKind.noConfusion h, fun _ => ⟨rfl, rfl⟩⟩
  | sendSubscribeRaise k0 =>
      simp only [handshakeExc, Option.some.injEq] at hk
      subst hk
      cases k0 with
      | connectionClosed => exact ⟨rfl, fun _ => ⟨rfl, rfl⟩, fun h => ExcKind.noConfusion h⟩
      | otherExc => exact ⟨rfl, fun h => ExcKind.noConfusion h, fun _ => ⟨rfl, rfl⟩⟩
  | recvSubscribeRaise k0 =>
      simp only [handshakeExc, Option.some.injEq] at hk
      subst hk
      cases k0 with
      | connectionClosed => exact ⟨rfl, fun _ => ⟨rfl, rfl⟩, fun h => ExcKind.noConfusion h⟩
      | otherExc => exact ⟨rfl, fun h => ExcKind.noConfusion h, fun _ => ⟨rfl, rfl⟩⟩

/-- Witness for C10 at a concrete handshake failure: a
`ConnectionClosed` raised while reading the subscribe acknowledgment. -/
theorem C10_confirmed_witness :
    (sessionIter 0 initStats 0 (TryScript.sendSubscribeRaise ExcKind.connectionClosed) 2).attempts = 0 + 1
      ∧ (ExcKind.connectionClosed = ExcKind.connectionClosed →
          (sessionIter 0 initStats 0 (TryScript.sendSubscribeRaise ExcKind.connectionClosed) 2).stats.reconnections
              = initStats.reconnections + 1
            ∧ (sessionIter 0 initStats 0 (TryScript.sendSubscribeRaise ExcKind.connectionClosed) 2).stats.errors
              = initStats.errors)
      ∧ (ExcKind.connectionClosed = ExcKind.otherExc →
          (sessionIter 0 initStats 0 (TryScript.sendSubscribeRaise ExcKind.connectionClosed) 2).stats.errors
              = initStats.errors + 1
            ∧ (sessionIter 0 initStats 0 (TryScript.sendSubscribeRaise ExcKind.connectionClosed) 2).stats.reconnections
              = initStats.reconnections) :=
  C10_confirmed 0 initStats 0 (TryScript.sendSubscribeRaise ExcKind.connectionClosed)
    2 ExcKind.connectionClosed rfl

end WsStress
